import Mathlib

/-!
Verification of the warehouse transformation stage of the
ecommerce-data-pipeline repository (scripts/transformation/load_warehouse.py
and scripts/transformation/staging_to_production.py).

The Python code manipulates PostgreSQL tables through psycopg2; we embed the
*committed* database state shallowly: each table is a Lean list of rows, each
loader is a pure function from the production-source rows and the prior
warehouse state to the new warehouse state (or an `Except` error when the
Python code would raise before reaching `conn.commit()`).  Monetary values
(NUMERIC columns) are modelled as exact rationals `ℚ`; SQL dates as a
`PDate` record (year, month, day); SQL `NULL` as `Option`.
-/

/-- A calendar date (as Python's `datetime.date`): year, month (1–12),
day (1–31). -/
structure PDate where
  year : Nat
  month : Nat
  day : Nat
deriving DecidableEq, Repr

/-- The `YYYYMMDD` integer encoding `int(d.strftime("%Y%m%d"))` used by
`build_dim_date` and `load_fact_sales`. -/
def PDate.key (d : PDate) : Nat :=
  d.year * 10000 + d.month * 100 + d.day

/-- Gregorian leap-year test (as `calendar.isleap`, underlying
`datetime.date` arithmetic). -/
def isLeap (y : Nat) : Bool :=
  (y % 4 = 0 && y % 100 ≠ 0) || y % 400 = 0

/-- Number of days in a month of the proleptic Gregorian calendar. -/
def daysInMonth (y m : Nat) : Nat :=
  if m = 2 then (if isLeap y then 29 else 28)
  else if m = 4 ∨ m = 6 ∨ m = 9 ∨ m = 11 then 30
  else 31

/-- The next calendar day: embeds `d += timedelta(days=1)` for a valid date. -/
def PDate.next (d : PDate) : PDate :=
  if d.day < daysInMonth d.year d.month then ⟨d.year, d.month, d.day + 1⟩
  else if d.month < 12 then ⟨d.year, d.month + 1, 1⟩
  else ⟨d.year + 1, 1, 1⟩

/-- Julian day number of a Gregorian date (standard formula); used to derive
the weekday and to bound the `while d <= end_date` loop. -/
def PDate.jdn (d : PDate) : Nat :=
  let a := (14 - d.month) / 12
  let y := d.year + 4800 - a
  let m := d.month + 12 * a - 3
  d.day + (153 * m + 2) / 5 + 365 * y + y / 4 - y / 100 + y / 400 - 32045

/-- Python's `date.weekday()`: Monday = 0 … Sunday = 6.
JDN 2440585 (1969-12-29) was a Monday, and `jdn % 7` shifts by one per day. -/
def PDate.weekday (d : PDate) : Nat :=
  d.jdn % 7

/-- `d.strftime("%B")`: full English month name. -/
def monthName : Nat → String
  | 1 => "January" | 2 => "February" | 3 => "March" | 4 => "April"
  | 5 => "May" | 6 => "June" | 7 => "July" | 8 => "August"
  | 9 => "September" | 10 => "October" | 11 => "November" | 12 => "December"
  | _ => ""

/-- `d.strftime("%A")`: full English weekday name, indexed by
`date.weekday()` (Monday = 0). -/
def dayName : Nat → String
  | 0 => "Monday" | 1 => "Tuesday" | 2 => "Wednesday" | 3 => "Thursday"
  | 4 => "Friday" | 5 => "Saturday" | 6 => "Sunday"
  | _ => ""

/-- Ordinal day of the year (1 for January 1st). -/
def PDate.dayOfYear (d : PDate) : Nat :=
  let cum := match d.month with
    | 1 => 0 | 2 => 31 | 3 => 59 | 4 => 90 | 5 => 120 | 6 => 151
    | 7 => 181 | 8 => 212 | 9 => 243 | 10 => 273 | 11 => 304 | _ => 334
  cum + d.day + (if 2 < d.month ∧ isLeap d.year then 1 else 0)

/-- Helper for the ISO week-count rule: `(y + y/4 - y/100 + y/400) % 7`. -/
def isoP (y : Nat) : Nat :=
  (y + y / 4 - y / 100 + y / 400) % 7

/-- Number of ISO weeks in year `y` (52 or 53). -/
def isoWeeksInYear (y : Nat) : Nat :=
  52 + (if isoP y = 4 ∨ (0 < y ∧ isoP (y - 1) = 3) then 1 else 0)

/-- `d.isocalendar()[1]`: the ISO-8601 week number (1–53). -/
def PDate.isoWeek (d : PDate) : Nat :=
  let w := d.weekday + 1
  let raw : Int := ((d.dayOfYear : Int) - w + 10) / 7
  if raw < 1 then isoWeeksInYear (d.year - 1)
  else if raw > isoWeeksInYear d.year then 1
  else raw.toNat

/-- A row of `warehouse.dim_date` as inserted by `build_dim_date`:
`(date_key, full_date, year, quarter, month, day, month_name, day_name,
week_of_year, is_weekend)`. -/
structure DimDateRow where
  date_key : Nat
  full_date : PDate
  year : Nat
  quarter : Nat
  month : Nat
  day : Nat
  month_name : String
  day_name : String
  week_of_year : Nat
  is_weekend : Bool
deriving DecidableEq, Repr

/-- The row `build_dim_date` computes for day `d`. -/
def mkDimDateRow (d : PDate) : DimDateRow :=
  { date_key := d.key
    full_date := d
    year := d.year
    quarter := (d.month - 1) / 3 + 1
    month := d.month
    day := d.day
    month_name := monthName d.month
    day_name := dayName d.weekday
    week_of_year := d.isoWeek
    is_weekend := decide (d.weekday ≥ 5) }

/-- One `INSERT ... ON CONFLICT (date_key) DO NOTHING` into
`warehouse.dim_date`. -/
def insertDimDate (t : List DimDateRow) (d : PDate) : List DimDateRow :=
  if t.any (fun r => r.date_key = d.key) then t else t ++ [mkDimDateRow d]

/-- The `while d <= end_date` loop of `build_dim_date`, with explicit fuel;
the loop also stops when `d` passes `end_` (compared by Julian day number,
matching `datetime.date` ordering for valid dates). -/
def dimDateLoop : Nat → PDate → PDate → List DimDateRow → List DimDateRow
  | 0, _, _, t => t
  | fuel + 1, d, end_, t =>
      if d.jdn ≤ end_.jdn then
        dimDateLoop fuel d.next end_ (insertDimDate t d)
      else t

/-- `build_dim_date(conn, start_date, end_date)`: iterates from `start` to
`end_` inclusive, upserting one `dim_date` row per day with
conflict-ignore on `date_key`.  The fuel `end_.jdn + 1 - start.jdn` covers
every iteration of the source's `while` loop. -/
def build_dim_date (start end_ : PDate) (t : List DimDateRow) : List DimDateRow :=
  dimDateLoop (end_.jdn + 1 - start.jdn) start end_ t

example : (build_dim_date ⟨2023, 1, 1⟩ ⟨2023, 1, 3⟩ []).map (·.date_key)
    = [20230101, 20230102, 20230103] := by decide

example : (mkDimDateRow ⟨2023, 1, 1⟩).day_name = "Sunday" := by decide
example : (mkDimDateRow ⟨2023, 1, 1⟩).week_of_year = 52 := by decide
example : (mkDimDateRow ⟨2024, 12, 30⟩).week_of_year = 1 := by decide
example : (mkDimDateRow ⟨2025, 10, 12⟩).is_weekend = true := by decide

/-- A row of `warehouse.dim_payment_method` (serial surrogate key,
natural key `payment_method_name`). -/
structure DimPaymentRow where
  payment_method_key : Nat
  payment_method_name : String
  payment_type : String
deriving DecidableEq, Repr

/-- The fixed method → type mapping of `load_payment_methods`. -/
def paymentMethods : List (String × String) :=
  [("Credit Card", "Online"), ("Debit Card", "Online"), ("UPI", "Online"),
   ("Net Banking", "Online"), ("Cash on Delivery", "Offline")]

/-- `load_payment_methods(conn)`: upsert each pair with
`ON CONFLICT (payment_method_name) DO NOTHING`; surrogate keys continue
from the current row count (serial column). -/
def load_payment_methods (t : List DimPaymentRow) : List DimPaymentRow :=
  paymentMethods.foldl
    (fun t p =>
      if t.any (fun r => r.payment_method_name = p.1) then t
      else t ++ [⟨t.length + 1, p.1, p.2⟩]) t

/-- A row of `production.customers` (the cleansed source of truth consumed
by `load_dim_customers`). -/
structure ProdCustomer where
  customer_id : Nat
  first_name : String
  last_name : String
  email : String
  city : String
  state : String
  country : String
  age_group : String
  registration_date : PDate
deriving DecidableEq, Repr

/-- A row of `warehouse.dim_customers` (`customer_key` is the serial
surrogate key; `customer_id` the natural business key). -/
structure DimCustomerRow where
  customer_key : Nat
  customer_id : Nat
  full_name : String
  email : String
  city : String
  state : String
  country : String
  age_group : String
  customer_segment : String
  registration_date : PDate
  effective_date : PDate
  end_date : Option PDate
  is_current : Bool
deriving DecidableEq, Repr

/-- `load_dim_customers(conn)`: reads every `production.customers` row and
unconditionally inserts a fresh version
(`effective_date = CURRENT_DATE, end_date = NULL, is_current = TRUE`);
`runDate` models `CURRENT_DATE`.  Note the source never updates or closes
existing rows of `warehouse.dim_customers`. -/
def load_dim_customers (runDate : PDate) (src : List ProdCustomer)
    (dim : List DimCustomerRow) : List DimCustomerRow :=
  dim ++ src.enum.map (fun ic =>
    { customer_key := dim.length + 1 + ic.1
      customer_id := ic.2.customer_id
      full_name := ic.2.first_name ++ " " ++ ic.2.last_name
      email := ic.2.email
      city := ic.2.city
      state := ic.2.state
      country := ic.2.country
      age_group := ic.2.age_group
      customer_segment := "Regular"
      registration_date := ic.2.registration_date
      effective_date := runDate
      end_date := none
      is_current := true })

/-- A row of `production.products`. -/
structure ProdProduct where
  product_id : Nat
  product_name : String
  category : String
  sub_category : String
  brand : String
  price : ℚ
  cost : ℚ
deriving DecidableEq, Repr

/-- A row of `warehouse.dim_products`. -/
structure DimProductRow where
  product_key : Nat
  product_id : Nat
  product_name : String
  category : String
  sub_category : String
  brand : String
  price_range : String
  effective_date : PDate
  end_date : Option PDate
  is_current : Bool
deriving DecidableEq, Repr

/-- The price-tier bucketing inside `load_dim_products`. -/
def priceRange (price : ℚ) : String :=
  if price < 50 then "Budget"
  else if price < 200 then "Mid-range"
  else "Premium"

/-- `load_dim_products(conn)`: like `load_dim_customers`, unconditionally
inserts one fresh current version per `production.products` row, never
touching existing `warehouse.dim_products` rows. -/
def load_dim_products (runDate : PDate) (src : List ProdProduct)
    (dim : List DimProductRow) : List DimProductRow :=
  dim ++ src.enum.map (fun ip =>
    { product_key := dim.length + 1 + ip.1
      product_id := ip.2.product_id
      product_name := ip.2.product_name
      category := ip.2.category
      sub_category := ip.2.sub_category
      brand := ip.2.brand
      price_range := priceRange ip.2.price
      effective_date := runDate
      end_date := none
      is_current := true })

/-- A row of `production.transactions` (columns used by the fact query). -/
structure ProdTransaction where
  transaction_id : Nat
  customer_id : Nat
  transaction_date : PDate
  payment_method : String
deriving DecidableEq, Repr

/-- A row of `production.transaction_items` (columns used by the pipeline). -/
structure ProdItem where
  item_id : Nat
  transaction_id : Nat
  product_id : Nat
  quantity : ℚ
  unit_price : ℚ
  discount_percentage : ℚ
  line_total : ℚ
deriving DecidableEq, Repr

/-- One row of the source query of `load_fact_sales`: `transaction_items`
joined with `transactions`, `products` and `customers`. -/
structure JoinedRow where
  transaction_id : Nat
  transaction_date : PDate
  quantity : ℚ
  unit_price : ℚ
  discount_percentage : ℚ
  line_total : ℚ
  cost : ℚ
  customer_id : Nat
  product_id : Nat
  payment_method : String
deriving DecidableEq, Repr

/-- The inner join of the `load_fact_sales` source query:
`transaction_items JOIN transactions JOIN products JOIN customers`
on their natural keys. -/
def joinFactSource (items : List ProdItem) (txns : List ProdTransaction)
    (prods : List ProdProduct) (custs : List ProdCustomer) : List JoinedRow :=
  items.flatMap (fun ti =>
    (txns.filter (fun t => t.transaction_id = ti.transaction_id)).flatMap (fun t =>
      (prods.filter (fun p => p.product_id = ti.product_id)).flatMap (fun p =>
        (custs.filter (fun c => c.customer_id = t.customer_id)).map (fun c =>
          { transaction_id := t.transaction_id
            transaction_date := t.transaction_date
            quantity := ti.quantity
            unit_price := ti.unit_price
            discount_percentage := ti.discount_percentage
            line_total := ti.line_total
            cost := p.cost
            customer_id := c.customer_id
            product_id := p.product_id
            payment_method := t.payment_method }))))

/-- A row of `warehouse.fact_sales` as inserted by `load_fact_sales`. -/
structure FactRow where
  date_key : Nat
  customer_key : Nat
  product_key : Nat
  payment_method_key : Nat
  transaction_id : Nat
  quantity : ℚ
  unit_price : ℚ
  discount_amount : ℚ
  line_total : ℚ
  profit : ℚ
deriving DecidableEq, Repr

/-- The dimension tables `load_fact_sales` reads its surrogate keys from. -/
structure Dims where
  customers : List DimCustomerRow
  products : List DimProductRow
  payments : List DimPaymentRow
deriving Repr

/-- `SELECT customer_key FROM warehouse.dim_customers WHERE customer_id=%s
AND is_current=TRUE` followed by `fetchone()`: the first matching row, if
any. -/
def lookupCustomerKey (dims : Dims) (cid : Nat) : Option Nat :=
  ((dims.customers.filter (fun r => r.customer_id = cid ∧ r.is_current)).head?).map
    (·.customer_key)

/-- Current-product surrogate-key lookup, as for customers. -/
def lookupProductKey (dims : Dims) (pid : Nat) : Option Nat :=
  ((dims.products.filter (fun r => r.product_id = pid ∧ r.is_current)).head?).map
    (·.product_key)

/-- Payment-method surrogate-key lookup (no `is_current` filter in the
source query). -/
def lookupPaymentKey (dims : Dims) (name : String) : Option Nat :=
  ((dims.payments.filter (fun r => r.payment_method_name = name)).head?).map
    (·.payment_method_key)

/-- The body of the `load_fact_sales` loop for one joined row: resolves the
three surrogate keys (`fetchone()[0]` raises `TypeError` when `fetchone()`
returns `None`, modelled as `Except.error`), computes
`discount_amt = (unit_price * quantity) * (discount_percentage / 100)` and
`profit = line_total - cost * quantity`, and yields the fact row. -/
def deriveFact (dims : Dims) (r : JoinedRow) : Except String FactRow :=
  match lookupCustomerKey dims r.customer_id with
  | none => .error "TypeError: no current dim_customers row"
  | some customer_key =>
    match lookupProductKey dims r.product_id with
    | none => .error "TypeError: no current dim_products row"
    | some product_key =>
      match lookupPaymentKey dims r.payment_method with
      | none => .error "TypeError: no dim_payment_method row"
      | some payment_key =>
        .ok { date_key := r.transaction_date.key
              customer_key := customer_key
              product_key := product_key
              payment_method_key := payment_key
              transaction_id := r.transaction_id
              quantity := r.quantity
              unit_price := r.unit_price
              discount_amount := (r.unit_price * r.quantity) * (r.discount_percentage / 100)
              line_total := r.line_total
              profit := r.line_total - (r.cost * r.quantity) }

/-- Run `f` over a list left-to-right, stopping at the first error — the
`for _, r in df.iterrows()` loop, which raises out of the function on the
first failing row. -/
def mapExcept {α β ε : Type} (f : α → Except ε β) : List α → Except ε (List β)
  | [] => .ok []
  | x :: xs =>
    match f x with
    | .error e => .error e
    | .ok y =>
      match mapExcept f xs with
      | .error e => .error e
      | .ok ys => .ok (y :: ys)

/-- `load_fact_sales(conn)`, committed-state semantics: the single
`conn.commit()` sits after the loop, so the run either appends every derived
row to the existing `warehouse.fact_sales` (there is no TRUNCATE in this
function) or raises before committing anything.  Returns the committed fact
table on success. -/
def load_fact_sales (dims : Dims) (joined : List JoinedRow)
    (fact : List FactRow) : Except String (List FactRow) :=
  (mapExcept (deriveFact dims) joined).map (fun rows => fact ++ rows)

/-- The committed `warehouse.fact_sales` after running `load_fact_sales`:
unchanged when the run raises (no commit happened). -/
def factAfterRun (dims : Dims) (joined : List JoinedRow)
    (fact : List FactRow) : List FactRow :=
  match load_fact_sales dims joined fact with
  | .ok t => t
  | .error _ => fact

/-- A row of `warehouse.agg_daily_sales`: `(date_key, COUNT(DISTINCT
transaction_id), SUM(line_total), SUM(profit), COUNT(DISTINCT
customer_key))`. -/
structure AggDailyRow where
  date_key : Nat
  transaction_count : Nat
  total_revenue : ℚ
  total_profit : ℚ
  customer_count : Nat
deriving DecidableEq, Repr

/-- A row of `warehouse.agg_product_performance`. -/
structure AggProductRow where
  product_key : Nat
  total_quantity_sold : ℚ
  total_revenue : ℚ
  total_profit : ℚ
  avg_discount_amount : ℚ
deriving DecidableEq, Repr

/-- A row of `warehouse.agg_customer_metrics` (`last_purchase` is
`MAX(date_key::TEXT)::DATE`; on fixed-width `YYYYMMDD` text this is the
numeric maximum of the date keys). -/
structure AggCustomerRow where
  customer_key : Nat
  transaction_count : Nat
  total_revenue : ℚ
  avg_order_value : ℚ
  last_purchase_key : Nat
deriving DecidableEq, Repr

/-- The daily-sales `INSERT ... SELECT ... GROUP BY date_key` of
`build_aggregates`: one row per distinct `date_key` of `fact_sales`. -/
def buildDailyAgg (facts : List FactRow) : List AggDailyRow :=
  ((facts.map (·.date_key)).dedup).map (fun dk =>
    let g := facts.filter (fun f => f.date_key = dk)
    { date_key := dk
      transaction_count := ((g.map (·.transaction_id)).dedup).length
      total_revenue := (g.map (·.line_total)).sum
      total_profit := (g.map (·.profit)).sum
      customer_count := ((g.map (·.customer_key)).dedup).length })

/-- The product-performance `GROUP BY product_key` of `build_aggregates`
(`AVG(discount_amount)` = sum / group size). -/
def buildProductAgg (facts : List FactRow) : List AggProductRow :=
  ((facts.map (·.product_key)).dedup).map (fun pk =>
    let g := facts.filter (fun f => f.product_key = pk)
    { product_key := pk
      total_quantity_sold := (g.map (·.quantity)).sum
      total_revenue := (g.map (·.line_total)).sum
      total_profit := (g.map (·.profit)).sum
      avg_discount_amount := (g.map (·.discount_amount)).sum / g.length })

/-- The customer-metrics `GROUP BY customer_key` of `build_aggregates`. -/
def buildCustomerAgg (facts : List FactRow) : List AggCustomerRow :=
  ((facts.map (·.customer_key)).dedup).map (fun ck =>
    let g := facts.filter (fun f => f.customer_key = ck)
    { customer_key := ck
      transaction_count := ((g.map (·.transaction_id)).dedup).length
      total_revenue := (g.map (·.line_total)).sum
      avg_order_value := (g.map (·.line_total)).sum / g.length
      last_purchase_key := (g.map (·.date_key)).foldl max 0 })

/-- The three aggregate tables. -/
structure Aggs where
  daily : List AggDailyRow
  product : List AggProductRow
  customer : List AggCustomerRow
deriving DecidableEq, Repr

/-- `build_aggregates(conn)`: each aggregate table is TRUNCATEd and then
repopulated from `warehouse.fact_sales` — unconditionally, the prior
contents never survive. -/
def build_aggregates (facts : List FactRow) (_prior : Aggs) : Aggs :=
  { daily := buildDailyAgg facts
    product := buildProductAgg facts
    customer := buildCustomerAgg facts }

/-- Result record of `load_to_production` (`{"inserted": n, "status": s}`). -/
structure LoadResult where
  inserted : Nat
  status : String
deriving DecidableEq, Repr

/-- `load_to_production(df, table_name, connection, strategy)` from
`staging_to_production.py`, over an abstract row type: with an empty
dataframe it returns `skipped` before any SQL runs; otherwise it TRUNCATEs
the target first when `strategy == "truncate"` and bulk-inserts the rows.
Returns the new target-table contents and the result record. -/
def load_to_production {α : Type} (df : List α) (strategy : String)
    (table : List α) : List α × LoadResult :=
  if df.length = 0 then (table, ⟨0, "skipped"⟩)
  else
    ((if strategy = "truncate" then ([] : List α) else table) ++ df,
     ⟨df.length, "success"⟩)

/-- A staging `transaction_items` row as cleansed by
`cleanse_transaction_items` (the columns it touches). -/
structure ItemRow where
  item_id : Nat
  transaction_id : Nat
  product_id : Nat
  quantity : ℚ
  unit_price : ℚ
  discount_percentage : ℚ
  line_total : ℚ
deriving DecidableEq, Repr

/-- `round(x, 2)` on exact decimals: round to the nearest multiple of
1/100.  (Python's float `round` breaks ties to even; `Mathlib.round` breaks
them upward — the two agree except on exact half-cent ties, and every bound
proved below holds for either convention.) -/
def round2 (x : ℚ) : ℚ :=
  (round (100 * x) : ℤ) / 100

/-- `cleanse_transaction_items(df)`: drop rows with `quantity <= 0`, then
recompute `line_total = round(quantity * unit_price *
(1 - discount_percentage / 100), 2)`. -/
def cleanse_transaction_items (df : List ItemRow) : List ItemRow :=
  (df.filter (fun r => 0 < r.quantity)).map (fun r =>
    { r with line_total :=
        round2 (r.quantity * r.unit_price * (1 - r.discount_percentage / 100)) })

example : round2 (123456/1000) = 12346/100 := by
  unfold round2; norm_num [round_eq]

example : cleanse_transaction_items
    [{ item_id := 1, transaction_id := 1, product_id := 1, quantity := 3,
       unit_price := 100, discount_percentage := 10, line_total := 0 }]
    = [{ item_id := 1, transaction_id := 1, product_id := 1, quantity := 3,
         unit_price := 100, discount_percentage := 10, line_total := 270 }] := by
  simp [cleanse_transaction_items, round2, round_eq]
  norm_num

/-! ## Concrete fixtures used by the claim theorems -/

/-- A one-customer production source (business key `customer_id = 1`). -/
def custSrcDelhi : List ProdCustomer :=
  [{ customer_id := 1, first_name := "Asha", last_name := "Rao",
     email := "asha@example.com", city := "Delhi", state := "DL",
     country := "India", age_group := "25-34",
     registration_date := ⟨2022, 5, 4⟩ }]

/-- The same customer after a tracked attribute (city) changed. -/
def custSrcMumbai : List ProdCustomer :=
  [{ customer_id := 1, first_name := "Asha", last_name := "Rao",
     email := "asha@example.com", city := "Mumbai", state := "MH",
     country := "India", age_group := "25-34",
     registration_date := ⟨2022, 5, 4⟩ }]

/-- A one-product production source (business key `product_id = 1`). -/
def prodSrcLamp : List ProdProduct :=
  [{ product_id := 1, product_name := "Lamp", category := "Home",
     sub_category := "Lighting", brand := "Glow", price := 100, cost := 60 }]

/-! ## C1 — SCD at-most-one-current invariant -/

/-- **C1** (code_bug evaluation). The claim says that after any sequence of
SCD-loader runs at most one row per natural key has `is_current = true`.
Evaluating the code at the failing input — two runs of each loader over a
fixed one-row source, starting from empty dimensions — refutes this: the
business key ends up with **two** rows that have `is_current = true` and
`end_date = null`, because the loaders insert fresh current versions without
ever closing existing ones. -/
theorem scd_current_invariant_violated_by_rerun :
    (((load_dim_customers ⟨2024, 1, 2⟩ custSrcDelhi
        (load_dim_customers ⟨2024, 1, 1⟩ custSrcDelhi [])).filter
        (fun r => r.customer_id = 1 ∧ r.is_current)).map (fun r => r.end_date))
      = [none, none] ∧
    (((load_dim_products ⟨2024, 1, 2⟩ prodSrcLamp
        (load_dim_products ⟨2024, 1, 1⟩ prodSrcLamp [])).filter
        (fun r => r.product_id = 1 ∧ r.is_current)).map (fun r => r.end_date))
      = [none, none] := by
  decide

/-! ## C2 — attribute change must close the old version -/

/-- **C2** (code_bug evaluation). The claim says a run that observes changed
tracked attributes closes the previously current version (`end_date` set,
`is_current = false`).  Evaluating the code where customer 1's city changes
from Delhi to Mumbai between runs: the second run inserts the new version
but leaves the old one open — both rows keep `is_current = true` and
`end_date = null`. -/
theorem scd_change_does_not_close_old_version :
    ((load_dim_customers ⟨2024, 2, 1⟩ custSrcMumbai
       (load_dim_customers ⟨2024, 1, 1⟩ custSrcDelhi [])).filter
       (fun r => r.customer_id = 1)).map
       (fun r => (r.city, r.is_current, r.end_date))
      = [("Delhi", true, none), ("Mumbai", true, none)] := by
  decide

/-! ## C3 — SCD idempotence on unchanged source -/

/-- **C3** (code_bug evaluation). The claim says a second run over unchanged
source data inserts zero new version rows.  Evaluating the code: the second
run over the identical one-row source grows each dimension by one row (one
new version per source row, not zero). -/
theorem scd_rerun_not_idempotent :
    (load_dim_customers ⟨2024, 1, 2⟩ custSrcDelhi
       (load_dim_customers ⟨2024, 1, 1⟩ custSrcDelhi [])).length
      = (load_dim_customers ⟨2024, 1, 1⟩ custSrcDelhi []).length + 1 ∧
    (load_dim_products ⟨2024, 1, 2⟩ prodSrcLamp
       (load_dim_products ⟨2024, 1, 1⟩ prodSrcLamp [])).length
      = (load_dim_products ⟨2024, 1, 1⟩ prodSrcLamp []).length + 1 := by
  decide

/-! ## Fact-loader fixtures and helper lemmas -/

/-- The current `dim_customers` version of customer 1. -/
def dimCustRow : DimCustomerRow :=
  { customer_key := 7, customer_id := 1, full_name := "Asha Rao",
    email := "asha@example.com", city := "Delhi", state := "DL",
    country := "India", age_group := "25-34", customer_segment := "Regular",
    registration_date := ⟨2022, 5, 4⟩, effective_date := ⟨2024, 1, 1⟩,
    end_date := none, is_current := true }

/-- The current `dim_products` version of product 1. -/
def dimProdRow : DimProductRow :=
  { product_key := 9, product_id := 1, product_name := "Lamp",
    category := "Home", sub_category := "Lighting", brand := "Glow",
    price_range := "Mid-range", effective_date := ⟨2024, 1, 1⟩,
    end_date := none, is_current := true }

/-- Warehouse dimensions holding one current row per natural key. -/
def wDims : Dims :=
  { customers := [dimCustRow]
    products := [dimProdRow]
    payments := [⟨3, "UPI", "Online"⟩] }

/-- The same dimensions with `dim_products` empty (no current product row). -/
def missingDims : Dims :=
  { customers := wDims.customers, products := [], payments := wDims.payments }

/-- The joined source row of the spec's worked example: quantity 3,
unit price 100.00, discount 10 %, cost 60.00, line total 270.00. -/
def jRowSpec : JoinedRow :=
  { transaction_id := 11, transaction_date := ⟨2024, 1, 5⟩, quantity := 3,
    unit_price := 100, discount_percentage := 10, line_total := 270,
    cost := 60, customer_id := 1, product_id := 1, payment_method := "UPI" }

/-- The fact row `load_fact_sales` derives from `jRowSpec` under `wDims`. -/
def factSpecRow : FactRow :=
  { date_key := 20240105, customer_key := 7, product_key := 9,
    payment_method_key := 3, transaction_id := 11, quantity := 3,
    unit_price := 100, discount_amount := 30, line_total := 270, profit := 90 }

/-- A fact row left over from an earlier `load_fact_sales` run. -/
def staleFact : FactRow :=
  { date_key := 20230101, customer_key := 1, product_key := 1,
    payment_method_key := 1, transaction_id := 5, quantity := 1,
    unit_price := 20, discount_amount := 0, line_total := 20, profit := 5 }

/-- Field equations of a successfully derived fact row. -/
lemma deriveFact_fields (dims : Dims) (r : JoinedRow) (f : FactRow)
    (h : deriveFact dims r = .ok f) :
    f.discount_amount = (r.unit_price * r.quantity) * (r.discount_percentage / 100) ∧
    f.profit = r.line_total - r.cost * r.quantity ∧
    f.line_total = r.line_total ∧
    f.quantity = r.quantity ∧
    f.unit_price = r.unit_price := by
  unfold deriveFact at h
  split at h
  · exact absurd h (by simp)
  split at h
  · exact absurd h (by simp)
  split at h
  · exact absurd h (by simp)
  cases h
  exact ⟨rfl, rfl, rfl, rfl, rfl⟩

/-- A single failing row makes the whole left-to-right traversal fail. -/
lemma mapExcept_error_of_mem {α β ε : Type} (f : α → Except ε β)
    (l : List α) (r : α) (hr : r ∈ l) (e : ε) (hf : f r = .error e) :
    ∃ e', mapExcept f l = .error e' := by
  induction l with
  | nil => cases hr
  | cons x xs ih =>
    rcases List.mem_cons.mp hr with h | h
    · subst h
      exact ⟨e, by simp [mapExcept, hf]⟩
    · cases hfx : f x with
      | error e0 => exact ⟨e0, by simp [mapExcept, hfx]⟩
      | ok y =>
        obtain ⟨e', he'⟩ := ih h
        exact ⟨e', by simp [mapExcept, hfx, he']⟩

/-- A row missing any of its three dimension lookups fails to derive. -/
lemma deriveFact_error_of_missing (dims : Dims) (r : JoinedRow)
    (hmiss : lookupCustomerKey dims r.customer_id = none ∨
             lookupProductKey dims r.product_id = none ∨
             lookupPaymentKey dims r.payment_method = none) :
    ∃ e, deriveFact dims r = .error e := by
  unfold deriveFact
  rcases hmiss with h | h | h
  · exact ⟨"TypeError: no current dim_customers row", by simp [h]⟩
  · cases hc : lookupCustomerKey dims r.customer_id with
    | none => exact ⟨"TypeError: no current dim_customers row", by simp [hc]⟩
    | some ck => exact ⟨"TypeError: no current dim_products row", by simp [hc, h]⟩
  · cases hc : lookupCustomerKey dims r.customer_id with
    | none => exact ⟨"TypeError: no current dim_customers row", by simp [hc]⟩
    | some ck =>
      cases hp : lookupProductKey dims r.product_id with
      | none => exact ⟨"TypeError: no current dim_products row", by simp [hc, hp]⟩
      | some pk => exact ⟨"TypeError: no dim_payment_method row", by simp [hc, hp, h]⟩

/-- Evaluation of the loader body on the spec's worked example. -/
lemma deriveFact_spec_eval : deriveFact wDims jRowSpec = .ok factSpecRow := by
  simp only [deriveFact, lookupCustomerKey, lookupProductKey, lookupPaymentKey,
    wDims, dimCustRow, dimProdRow, jRowSpec, factSpecRow,
    List.filter, List.head?, Option.map]
  norm_num [FactRow.mk.injEq, PDate.key]

/-! ## C4 — fact-table write strategy -/

/-- **C4** counterexample.  The claim says every `load_fact_sales` run
truncates: afterwards the fact table holds exactly the rows derived from
the current joined source, previous rows removed.  Concretely: the rows
derived from the one-row source are exactly `[factSpecRow]`, yet running
over a fact table still holding `staleFact` commits
`[staleFact, factSpecRow]` — the old row survives, so the table is not
exactly the derived rows. -/
theorem fact_loader_keeps_previous_rows :
    mapExcept (deriveFact wDims) [jRowSpec] = .ok [factSpecRow] ∧
    factAfterRun wDims [jRowSpec] [staleFact] = [staleFact, factSpecRow] ∧
    factAfterRun wDims [jRowSpec] [staleFact] ≠ [factSpecRow] := by
  refine ⟨by simp [mapExcept, deriveFact_spec_eval], ?_, ?_⟩
  · simp [factAfterRun, load_fact_sales, mapExcept, Except.map, deriveFact_spec_eval]
  · simp [factAfterRun, load_fact_sales, mapExcept, Except.map, deriveFact_spec_eval]

/-- **C4** amended claim: every run of `load_fact_sales` *appends* the rows
derived from the current joined production source to the existing fact
table; rows from previous runs are left in place (no truncation happens in
this function). -/
theorem fact_loader_appends (dims : Dims) (joined : List JoinedRow)
    (fact rows : List FactRow)
    (h : mapExcept (deriveFact dims) joined = .ok rows) :
    load_fact_sales dims joined fact = .ok (fact ++ rows) ∧
    factAfterRun dims joined fact = fact ++ rows := by
  constructor
  · simp [load_fact_sales, Except.map, h]
  · simp [factAfterRun, load_fact_sales, Except.map, h]

/-- Witness for `fact_loader_appends` at the concrete fixture. -/
theorem fact_loader_appends_witness :
    load_fact_sales wDims [jRowSpec] [staleFact] = .ok [staleFact, factSpecRow] ∧
    factAfterRun wDims [jRowSpec] [staleFact] = [staleFact, factSpecRow] :=
  fact_loader_appends wDims [jRowSpec] [staleFact] [factSpecRow]
    (by simp [mapExcept, deriveFact_spec_eval])

/-! ## C5 — referential-integrity failure is loud -/

/-- **C5**.  If any joined source record references a natural key with no
current dimension row, the whole `load_fact_sales` run raises
(`fetchone()` returns `None` and `None[0]` is a `TypeError`), and since
`conn.commit()` is only reached after the loop, the committed fact table is
exactly what it was before the run — no row, null key or garbage key is
ever committed for any record of that run. -/
theorem fact_loader_fails_loudly (dims : Dims) (joined : List JoinedRow)
    (fact : List FactRow) (r : JoinedRow) (hr : r ∈ joined)
    (hmiss : lookupCustomerKey dims r.customer_id = none ∨
             lookupProductKey dims r.product_id = none ∨
             lookupPaymentKey dims r.payment_method = none) :
    (∃ e, load_fact_sales dims joined fact = .error e) ∧
    factAfterRun dims joined fact = fact := by
  obtain ⟨e, he⟩ := deriveFact_error_of_missing dims r hmiss
  obtain ⟨e', he'⟩ := mapExcept_error_of_mem (deriveFact dims) joined r hr e he
  constructor
  · exact ⟨e', by simp [load_fact_sales, Except.map, he']⟩
  · simp [factAfterRun, load_fact_sales, Except.map, he']

/-- Witness for `fact_loader_fails_loudly`: the product dimension holds no
current row for product 1, so the run errors and commits nothing. -/
theorem fact_loader_fails_loudly_witness :
    (∃ e, load_fact_sales missingDims [jRowSpec] [staleFact] = .error e) ∧
    factAfterRun missingDims [jRowSpec] [staleFact] = [staleFact] :=
  fact_loader_fails_loudly missingDims [jRowSpec] [staleFact] jRowSpec
    (by simp) (Or.inr (Or.inl rfl))

/-! ## C6 — derived measures -/

/-- **C6**.  Every successfully derived fact row carries
`discount_amount = unit_price × quantity × (discount_percentage / 100)` and
`profit = line_total − cost × quantity`. -/
theorem fact_loader_measures (dims : Dims) (r : JoinedRow) (f : FactRow)
    (h : deriveFact dims r = .ok f) :
    f.discount_amount = r.unit_price * r.quantity * (r.discount_percentage / 100) ∧
    f.profit = r.line_total - r.cost * r.quantity := by
  obtain ⟨hd, hp, -, -, -⟩ := deriveFact_fields dims r f h
  exact ⟨hd, hp⟩

/-- Witness for `fact_loader_measures` at the spec's worked example:
quantity 3, unit price 100.00, discount 10 %, cost 60.00,
line total 270.00 give discount 30.00 and profit 90.00. -/
theorem fact_loader_measures_witness :
    factSpecRow.discount_amount = 30 ∧ factSpecRow.profit = 90 := by
  have h := fact_loader_measures wDims jRowSpec factSpecRow deriveFact_spec_eval
  refine ⟨h.1.trans ?_, h.2.trans ?_⟩
  · norm_num [jRowSpec]
  · norm_num [jRowSpec]

/-! ## C7 — daily aggregate correctness -/

/-- `find?` over rows generated one-per-key returns the generated row of the
first matching key. -/
lemma find_map_gen {α : Type} (key : α → Nat) (l : List Nat) (k : Nat)
    (f : Nat → α) (hkey : ∀ x, key (f x) = x) (hk : k ∈ l) :
    (l.map f).find? (fun a => key a = k) = some (f k) := by
  induction l with
  | nil => cases hk
  | cons x xs ih =>
    by_cases hx : x = k
    · subst hx
      rw [List.map_cons]
      exact List.find?_cons_of_pos _ (by simp [hkey])
    · rw [List.map_cons, List.find?_cons_of_neg _ (by simp [hkey, hx])]
      exact ih (by rcases List.mem_cons.mp hk with h | h; exacts [absurd h.symm hx, h])

/-- **C7**.  After `build_aggregates` runs, the `agg_daily_sales` row of any
`date_key` present in `fact_sales` holds exactly the distinct transaction
count, summed `line_total` (revenue), summed `profit` and distinct customer
count over the fact rows with that `date_key`. -/
theorem agg_daily_matches_facts (facts : List FactRow) (prior : Aggs) (dk : Nat)
    (h : dk ∈ facts.map (fun f => f.date_key)) :
    ((build_aggregates facts prior).daily).find? (fun a => a.date_key = dk)
      = some
        { date_key := dk
          transaction_count :=
            (((facts.filter (fun f => f.date_key = dk)).map
              (fun f => f.transaction_id)).dedup).length
          total_revenue :=
            ((facts.filter (fun f => f.date_key = dk)).map
              (fun f => f.line_total)).sum
          total_profit :=
            ((facts.filter (fun f => f.date_key = dk)).map
              (fun f => f.profit)).sum
          customer_count :=
            (((facts.filter (fun f => f.date_key = dk)).map
              (fun f => f.customer_key)).dedup).length } := by
  have hdk : dk ∈ (facts.map (fun f => f.date_key)).dedup := List.mem_dedup.mpr h
  refine find_map_gen (fun a : AggDailyRow => a.date_key)
    ((facts.map (fun f => f.date_key)).dedup) dk _ ?_ hdk
  exact fun x => rfl

/-- Two fact rows sharing `date_key = 20240105`: distinct transactions 11
and 12, same customer 7, revenues 10 and 20, profits 4 apiece. -/
def aggFactA : FactRow :=
  { date_key := 20240105, customer_key := 7, product_key := 9,
    payment_method_key := 3, transaction_id := 11, quantity := 1,
    unit_price := 10, discount_amount := 0, line_total := 10, profit := 4 }

/-- Second fixture fact row for the aggregate witness. -/
def aggFactB : FactRow :=
  { date_key := 20240105, customer_key := 7, product_key := 9,
    payment_method_key := 3, transaction_id := 12, quantity := 2,
    unit_price := 10, discount_amount := 0, line_total := 20, profit := 4 }

/-- Witness for `agg_daily_matches_facts`: two fact rows on one date with
revenues 10 and 20 aggregate to transaction count 2, revenue 30, profit 8,
customer count 1. -/
theorem agg_daily_matches_facts_witness :
    ((build_aggregates [aggFactA, aggFactB] ⟨[], [], []⟩).daily).find?
      (fun a => a.date_key = 20240105)
      = some ⟨20240105, 2, 30, 8, 1⟩ := by
  have h := agg_daily_matches_facts [aggFactA, aggFactB] ⟨[], [], []⟩ 20240105
    (by simp [aggFactA, aggFactB])
  rw [h]
  norm_num [aggFactA, aggFactB, List.filter, List.dedup_cons_of_mem,
    List.dedup_cons_of_not_mem, AggDailyRow.mk.injEq]

/-! ## C8 — date-dimension rerun safety -/

/-- Conflict-ignore insertion never disturbs the rows of a key that is
already present. -/
lemma insertDimDate_preserves (t : List DimDateRow) (d : PDate) (k : Nat)
    (hk : k ∈ t.map (fun r => r.date_key)) :
    (insertDimDate t d).filter (fun r => r.date_key = k)
      = t.filter (fun r => r.date_key = k) := by
  unfold insertDimDate
  split
  · rfl
  · rename_i hany
    have hne : ¬ (mkDimDateRow d).date_key = k := by
      intro he
      apply hany
      obtain ⟨r, hr, hrk⟩ := List.mem_map.mp hk
      rw [List.any_eq_true]
      exact ⟨r, hr, by simp [hrk, ← he, mkDimDateRow]⟩
    rw [List.filter_append]
    simp [hne]

/-- Conflict-ignore insertion keeps the `date_key` column duplicate-free. -/
lemma insertDimDate_nodup (t : List DimDateRow) (d : PDate)
    (h : (t.map (fun r => r.date_key)).Nodup) :
    ((insertDimDate t d).map (fun r => r.date_key)).Nodup := by
  unfold insertDimDate
  split
  · exact h
  · rename_i hany
    rw [List.map_append]
    refine List.Nodup.append h (by simp) ?_
    intro k hk1 hk2
    apply hany
    simp only [List.map_cons, List.map_nil, List.mem_singleton] at hk2
    obtain ⟨r, hr, hrk⟩ := List.mem_map.mp hk1
    rw [List.any_eq_true]
    refine ⟨r, hr, ?_⟩
    simp only [mkDimDateRow] at hk2
    simp [hrk, hk2]

/-- Keys already present stay present across an insertion. -/
lemma insertDimDate_mem (t : List DimDateRow) (d : PDate) (k : Nat)
    (hk : k ∈ t.map (fun r => r.date_key)) :
    k ∈ (insertDimDate t d).map (fun r => r.date_key) := by
  unfold insertDimDate
  split
  · exact hk
  · rw [List.map_append]
    exact List.mem_append_left _ hk

/-- The build loop preserves the rows of every key present beforehand. -/
lemma dimDateLoop_preserves (fuel : Nat) (d e : PDate) (t : List DimDateRow)
    (k : Nat) (hk : k ∈ t.map (fun r => r.date_key)) :
    (dimDateLoop fuel d e t).filter (fun r => r.date_key = k)
      = t.filter (fun r => r.date_key = k) := by
  induction fuel generalizing d t with
  | zero => rfl
  | succ n ih =>
    rw [dimDateLoop]
    split
    · rw [ih d.next (insertDimDate t d) (insertDimDate_mem t d k hk),
        insertDimDate_preserves t d k hk]
    · rfl

/-- The build loop keeps the `date_key` column duplicate-free. -/
lemma dimDateLoop_nodup (fuel : Nat) (d e : PDate) (t : List DimDateRow)
    (h : (t.map (fun r => r.date_key)).Nodup) :
    ((dimDateLoop fuel d e t).map (fun r => r.date_key)).Nodup := by
  induction fuel generalizing d t with
  | zero => exact h
  | succ n ih =>
    rw [dimDateLoop]
    split
    · exact ih d.next _ (insertDimDate_nodup t d h)
    · exact h

/-- **C8**.  Re-running `build_dim_date` over any second range (overlapping
or not) on top of a first run leaves zero duplicate `date_key`s and leaves
every row of a `date_key` present after the first run byte-for-byte
unchanged. -/
theorem dim_date_rerun_safe (s1 e1 s2 e2 : PDate) (k : Nat)
    (hk : k ∈ (build_dim_date s1 e1 []).map (fun r => r.date_key)) :
    ((build_dim_date s2 e2 (build_dim_date s1 e1 [])).map
      (fun r => r.date_key)).Nodup ∧
    (build_dim_date s2 e2 (build_dim_date s1 e1 [])).filter
      (fun r => r.date_key = k)
      = (build_dim_date s1 e1 []).filter (fun r => r.date_key = k) := by
  constructor
  · exact dimDateLoop_nodup _ _ _ _ (dimDateLoop_nodup _ _ _ [] (by simp))
  · exact dimDateLoop_preserves _ _ _ _ k hk

/-- Witness for `dim_date_rerun_safe`: first run over 2024-01-01…02, rerun
over the overlapping 2024-01-02…03, checked at key 20240102. -/
theorem dim_date_rerun_safe_witness :
    ((build_dim_date ⟨2024, 1, 2⟩ ⟨2024, 1, 3⟩
       (build_dim_date ⟨2024, 1, 1⟩ ⟨2024, 1, 2⟩ [])).map
       (fun r => r.date_key)).Nodup ∧
    (build_dim_date ⟨2024, 1, 2⟩ ⟨2024, 1, 3⟩
       (build_dim_date ⟨2024, 1, 1⟩ ⟨2024, 1, 2⟩ [])).filter
       (fun r => r.date_key = 20240102)
      = (build_dim_date ⟨2024, 1, 1⟩ ⟨2024, 1, 2⟩ []).filter
       (fun r => r.date_key = 20240102) :=
  dim_date_rerun_safe ⟨2024, 1, 1⟩ ⟨2024, 1, 2⟩ ⟨2024, 1, 2⟩ ⟨2024, 1, 3⟩
    20240102 (by decide)

/-! ## C9 — empty-source behaviour -/

/-- Aggregate contents committed by an earlier run. -/
def priorAggs : Aggs :=
  { daily := [⟨20230101, 1, 20, 5, 1⟩], product := [], customer := [] }

/-- **C9** counterexample.  The claim says no stage ever truncates its
target without replacement data when its source query returns zero rows.
`build_aggregates`, however, TRUNCATEs unconditionally: with an empty
`fact_sales` it empties `agg_daily_sales`, which previously held a row —
the target is not left untouched. -/
theorem agg_truncated_on_empty_source :
    (build_aggregates [] priorAggs).daily = [] ∧ priorAggs.daily ≠ [] :=
  ⟨rfl, by simp [priorAggs]⟩

/-- **C9** amended claim: on an empty source, `load_to_production` returns
`skipped` with the target untouched (its TRUNCATE is guarded behind the
row-count check), the SCD loaders and the fact loader leave their targets
unchanged — but the Aggregate Builder is an exception: it truncates and
rebuilds unconditionally, so an empty fact table yields empty aggregate
tables rather than untouched ones. -/
theorem empty_source_stage_behaviour :
    (∀ (α : Type) (strategy : String) (table : List α),
        load_to_production [] strategy table = (table, ⟨0, "skipped"⟩)) ∧
    (∀ runDate dim, load_dim_customers runDate [] dim = dim) ∧
    (∀ runDate dim, load_dim_products runDate [] dim = dim) ∧
    (∀ dims fact, load_fact_sales dims [] fact = .ok fact) ∧
    (∀ prior, build_aggregates [] prior = ⟨[], [], []⟩) := by
  refine ⟨fun α s t => rfl, fun rd dim => ?_, fun rd dim => ?_,
    fun dims fact => ?_, fun prior => rfl⟩
  · simp [load_dim_customers]
  · simp [load_dim_products]
  · simp [load_fact_sales, mapExcept, Except.map]

/-! ## C10 — rounding-exact measure identities -/

/-- Rounding to two decimals moves a value by at most half a cent. -/
lemma abs_round2_sub_le (x : ℚ) : |round2 x - x| ≤ 1 / 200 := by
  have h : |100 * x - (round (100 * x) : ℚ)| ≤ 1 / 2 := abs_sub_round (100 * x)
  rw [abs_sub_comm] at h
  unfold round2
  have heq : ((round (100 * x) : ℤ) : ℚ) / 100 - x
      = (((round (100 * x) : ℤ) : ℚ) - 100 * x) / 100 := by ring
  rw [heq, abs_div, abs_of_pos (by norm_num : (0:ℚ) < 100)]
  calc |(((round (100 * x) : ℤ) : ℚ)) - 100 * x| / 100
      ≤ (1 / 2) / 100 := (div_le_div_iff_of_pos_right (by norm_num)).mpr h
    _ = 1 / 200 := by norm_num

/-- **C10**.  For every transaction item that passed cleansing
(`quantity > 0`, `line_total` recomputed as
`round(quantity·unit_price·(1 − discount/100), 2)`), any fact row the Fact
Loader derives from a joined row carrying this item's measures satisfies
`line_total + discount_amount = quantity·unit_price` and
`profit = quantity·(unit_price·(1 − discount/100) − cost)`, both up to the
single half-cent rounding error `e` introduced by the cleansing step. -/
theorem cleansed_fact_measure_identity (df : List ItemRow) (it : ItemRow)
    (hit : it ∈ cleanse_transaction_items df)
    (dims : Dims) (j : JoinedRow) (f : FactRow)
    (hf : deriveFact dims j = .ok f)
    (hq : j.quantity = it.quantity) (hu : j.unit_price = it.unit_price)
    (hd : j.discount_percentage = it.discount_percentage)
    (hl : j.line_total = it.line_total) :
    0 < j.quantity ∧
    ∃ e : ℚ, |e| ≤ 1 / 200 ∧
      f.line_total + f.discount_amount = j.quantity * j.unit_price + e ∧
      f.profit = j.quantity *
        (j.unit_price * (1 - j.discount_percentage / 100) - j.cost) + e := by
  obtain ⟨hdisc, hprof, hlt, -, -⟩ := deriveFact_fields dims j f hf
  unfold cleanse_transaction_items at hit
  obtain ⟨r0, hr0, hr0eq⟩ := List.mem_map.mp hit
  have hq0 : 0 < r0.quantity := by
    have := List.of_mem_filter hr0
    simpa using this
  subst hr0eq
  constructor
  · rw [hq]; exact hq0
  · refine ⟨round2 (r0.quantity * r0.unit_price *
        (1 - r0.discount_percentage / 100))
      - r0.quantity * r0.unit_price * (1 - r0.discount_percentage / 100),
      abs_round2_sub_le _, ?_, ?_⟩
    · rw [hlt, hl, hdisc, hq, hu, hd]
      show round2 (r0.quantity * r0.unit_price *
          (1 - r0.discount_percentage / 100))
          + (r0.unit_price * r0.quantity) * (r0.discount_percentage / 100) = _
      ring
    · rw [hprof, hl, hq, hu, hd]
      show round2 (r0.quantity * r0.unit_price *
          (1 - r0.discount_percentage / 100)) - j.cost * r0.quantity = _
      ring

/-- A staged transaction item before cleansing (its stored `line_total` 300
is stale and will be recomputed). -/
def rawItemSpec : ItemRow :=
  { item_id := 1, transaction_id := 11, product_id := 1, quantity := 3,
    unit_price := 100, discount_percentage := 10, line_total := 300 }

/-- The same item after `cleanse_transaction_items`:
`line_total = round(3 · 100 · 0.9, 2) = 270`. -/
def cleanItemSpec : ItemRow :=
  { item_id := 1, transaction_id := 11, product_id := 1, quantity := 3,
    unit_price := 100, discount_percentage := 10, line_total := 270 }

/-- Witness for `cleansed_fact_measure_identity` at the spec's worked
example (quantity 3, unit price 100, discount 10 %, cost 60). -/
theorem cleansed_fact_measure_identity_witness :
    0 < jRowSpec.quantity ∧
    ∃ e : ℚ, |e| ≤ 1 / 200 ∧
      factSpecRow.line_total + factSpecRow.discount_amount
        = jRowSpec.quantity * jRowSpec.unit_price + e ∧
      factSpecRow.profit = jRowSpec.quantity *
        (jRowSpec.unit_price * (1 - jRowSpec.discount_percentage / 100)
          - jRowSpec.cost) + e :=
  cleansed_fact_measure_identity [rawItemSpec] cleanItemSpec
    (by
      simp [cleanse_transaction_items, rawItemSpec, cleanItemSpec,
        round2, round_eq]
      norm_num)
    wDims jRowSpec factSpecRow deriveFact_spec_eval rfl rfl rfl rfl
